import Mathlib

/-!
Verification of the calendar arithmetic, orbital position model, epoch/cycle
index and camera focus controller of the celestial-calendar repository
(src/app/components/SolarSystem.tsx).

The JavaScript source is embedded shallowly:
* JS numbers used as integers (years, day counts, cycle indices) become `Int`
  or `Nat`; the JS remainder operator `%` (truncated, sign of the dividend)
  becomes `Int.tmod`, and `Math.floor` of an integer quotient becomes `Int`
  division `/` (euclidean division, which rounds toward negative infinity for
  the positive divisors used here).
* JS array subscripts, which yield `undefined` out of bounds (in particular at
  negative indices), become `Option`-valued lookups; a string built from an
  `undefined` part is modelled as `none`.
* JS floating-point quantities fed to `Math.cos` / `Math.sin` are idealised as
  real numbers; the numeric literals of the source are exact decimal fractions
  and are kept as rationals where a computable table is needed.
-/

namespace CelestialCal

/-- The JS remainder operator `a % b`: truncated modulo, taking the sign of
the dividend, i.e. `Int.tmod`. -/
def jsMod (a b : Int) : Int := Int.tmod a b

/-- JS array subscript `l[i]` with an integer index: `undefined` (here `none`)
for negative or out-of-range indices. -/
def jsIndex {α : Type} (l : List α) (i : Int) : Option α :=
  if i < 0 then none else l.get? i.toNat

/-- `HEAVENLY_STEMS` of the source: the ten heavenly stems. -/
def HEAVENLY_STEMS : List String :=
  [ "甲", "乙", "丙", "丁", "戊", "己", "庚", "辛", "壬", "癸" ]

/-- `EARTHLY_BRANCHES` of the source: the twelve earthly branches. -/
def EARTHLY_BRANCHES : List String :=
  [ "子", "丑", "寅", "卯", "辰", "巳", "午", "未", "申", "酉", "戌", "亥" ]

/-- The stem/branch assembly shared verbatim by `getGanZhiYear` and
`getGanZhiDay` of the source:
`stemIndex = offset % 10; branchIndex = offset % 12;
return HEAVENLY_STEMS[stemIndex] + EARTHLY_BRANCHES[branchIndex]`.
JS `%` is the truncated remainder, and an out-of-range subscript yields
`undefined`, modelled by `none` propagating through the concatenation. -/
def ganZhiFromOffset (offset : Int) : Option String :=
  let stemIndex := jsMod offset 10
  let branchIndex := jsMod offset 12
  match jsIndex HEAVENLY_STEMS stemIndex, jsIndex EARTHLY_BRANCHES branchIndex with
  | some s, some b => some (s ++ b)
  | _, _ => none

/-- `getGanZhiYear` of the source:
`offset = (year - 4) % 60` with the JS truncated `%`, then the stem/branch
assembly of `ganZhiFromOffset`. -/
def getGanZhiYear (year : Int) : Option String :=
  ganZhiFromOffset (jsMod (year - 4) 60)

/-- Modelled from the spec: the yearLabel formula of spec §4.1, with the
mathematically-correct non-negative (non-truncating) modulo, stated there as
the required behaviour for all years including negative ones.  `Int.emod`
(Lean's `%`) is exactly that modulo for the positive moduli used.  This
definition exists only to be compared against `getGanZhiYear`. -/
def specYearLabel (year : Int) : String :=
  let offset := (year - 4) % 60
  HEAVENLY_STEMS.getD (offset % 10).toNat ( "" )
    ++ EARTHLY_BRANCHES.getD (offset % 12).toNat ( "" )

/-- The sexagenary name of cycle index `i`: stem `i % 10`, branch `i % 12`
(the indices are always in range, so the total `getD` lookup agrees with the
JS subscript). -/
def labelOfIndex (i : Nat) : String :=
  HEAVENLY_STEMS.getD (i % 10) ( "" ) ++ EARTHLY_BRANCHES.getD (i % 12) ( "" )

/-- One entry of the list built by `generate60JiaZi` of the source. -/
structure JiaziEntry where
  name : String
  year : Nat
  startYear : Int
deriving DecidableEq

/-- The body of the `for` loop of `generate60JiaZi` at index `i` (0 ≤ i < 60),
for generation-time current year `currentYear` (`new Date().getFullYear()` in
the source):
`cycles = Math.floor((currentYear - baseYear) / 60)` with `baseYear = 4`,
`recentYear = baseYear + i + cycles * 60`, and the entry steps `startYear`
back sixty years when `recentYear` exceeds `currentYear`.  `Math.floor` of the
quotient is euclidean division `/` since the divisor 60 is positive. -/
def jiaziEntryFor (currentYear : Int) (i : Nat) : JiaziEntry :=
  let stemIndex := i % 10
  let branchIndex := i % 12
  let name := HEAVENLY_STEMS.getD stemIndex ( "" )
    ++ EARTHLY_BRANCHES.getD branchIndex ( "" )
  let cycles := (currentYear - 4) / 60
  let recentYear := 4 + (i : Int) + cycles * 60
  if recentYear > currentYear then
    { name := name, year := i, startYear := recentYear - 60 }
  else
    { name := name, year := i, startYear := recentYear }

/-- `generate60JiaZi` of the source, parameterised by the generation-time
current year that the source reads from `new Date().getFullYear()`. -/
def generate60JiaZi (currentYear : Int) : List JiaziEntry :=
  (List.range 60).map (jiaziEntryFor currentYear)

/-- `getGanZhiDay` of the source, on the millisecond timestamp of the queried
date.  `baseDate = new Date('1949-10-01')` has timestamp −639100800000 ms;
`daysDiff = Math.floor((date - baseDate) / 86400000)` is euclidean division by
the positive constant; then `offset = (daysDiff + 10) % 60` with JS `%`, and
stem/branch subscripts as in `getGanZhiYear`. -/
def getGanZhiDay (dateMs : Int) : Option String :=
  let baseMs : Int := -639100800000
  let daysDiff := (dateMs - baseMs) / 86400000
  ganZhiFromOffset (jsMod (daysDiff + 10) 60)

/-- `getCurrentSolarTermIndex` of the source, as a function of the day-of-year
`dayOfYear = Math.floor((time - new Date(year, 0, 0)) / 86400000)`, which runs
1, 2, …, 365 (366 in leap years) as the date advances day by day from
January 1 to December 31: `Math.floor((dayOfYear * 24) / 365) % 24`. -/
def getCurrentSolarTermIndex (dayOfYear : Nat) : Nat :=
  dayOfYear * 24 / 365 % 24

/-- Number of strict decreases of `getCurrentSolarTermIndex` between
consecutive days over a year of `yearLength` days (days 1 … yearLength). -/
def termDescents (yearLength : Nat) : Nat :=
  (List.range' 1 (yearLength - 1)).countP
    (fun d => getCurrentSolarTermIndex (d + 1) < getCurrentSolarTermIndex d)

/-- The `jiaziToPlanet` table of the source (`Record<string, string>`), in
source order, as an association list.  A JS object-literal property access
`jiaziToPlanet[name]` is `List.lookup name`. -/
def jiaziToPlanet : List (String × String) :=
  [ ( "甲子", "mercury" ), ( "乙丑", "mercury" ),
    ( "丙子", "mercury" ), ( "丁丑", "mercury" ),
    ( "戊子", "mercury" ), ( "己丑", "mercury" ),
    ( "庚子", "mercury" ), ( "辛丑", "mercury" ),
    ( "壬子", "mercury" ), ( "癸丑", "mercury" ),
    ( "壬寅", "jupiter" ), ( "癸卯", "jupiter" ),
    ( "壬辰", "jupiter" ), ( "癸巳", "jupiter" ),
    ( "壬午", "jupiter" ), ( "癸未", "jupiter" ),
    ( "壬申", "jupiter" ), ( "癸酉", "jupiter" ),
    ( "壬戌", "jupiter" ), ( "癸亥", "jupiter" ),
    ( "丙寅", "mars" ), ( "丁卯", "mars" ),
    ( "丙辰", "mars" ), ( "丁巳", "mars" ),
    ( "丙午", "mars" ), ( "丁未", "mars" ),
    ( "丙申", "mars" ), ( "丁酉", "mars" ),
    ( "丙戌", "mars" ), ( "丁亥", "mars" ),
    ( "戊寅", "saturn" ), ( "己卯", "saturn" ),
    ( "戊辰", "saturn" ), ( "己巳", "saturn" ),
    ( "戊午", "saturn" ), ( "己未", "saturn" ),
    ( "戊申", "saturn" ), ( "己酉", "saturn" ),
    ( "戊戌", "saturn" ), ( "己亥", "saturn" ),
    ( "庚寅", "venus" ), ( "辛卯", "venus" ),
    ( "庚辰", "venus" ), ( "辛巳", "venus" ),
    ( "庚午", "venus" ), ( "辛未", "venus" ),
    ( "庚申", "venus" ), ( "辛酉", "venus" ),
    ( "庚戌", "venus" ), ( "辛亥", "venus" ),
    ( "甲寅", "mercury" ), ( "乙卯", "mercury" ),
    ( "甲辰", "mercury" ), ( "乙巳", "mercury" ),
    ( "甲午", "mercury" ), ( "乙未", "mercury" ),
    ( "甲申", "mercury" ), ( "乙酉", "mercury" ),
    ( "甲戌", "mercury" ), ( "乙亥", "mercury" ),
    ( "default", "earth" ) ]

/-- The `orbitalPeriods` table inside `calculatePosition` (days per orbit).
The JS float literals are exact decimal fractions, kept as rationals so the
table stays computable; they are cast to `ℝ` where the angle is formed. -/
def orbitalPeriods : List (String × ℚ) :=
  [ ( "Mercury", 87.97 ), ( "Venus", 224.7 ), ( "Earth", 365.256 ),
    ( "Mars", 686.98 ), ( "Jupiter", 4332.59 ), ( "Saturn", 10759.22 ),
    ( "Moon", 27.32 ) ]

/-- `calculatePosition` of the source.  `bodyKey` is the reverse-lookup
`Object.keys(Body).find(key => Body[key] === body)`, `none` when the body
value is not a member of the astronomy-engine `Body` enum; the source then
takes `orbitalPeriods[bodyKey || 'Earth'] || 365.256` (both fallbacks land on
Earth's period since `orbitalPeriods['Earth'] = 365.256`), forms
`angle = (daysSinceEpoch / period) * Math.PI * 2` and returns
`(distance * cos angle, 0, distance * sin angle)`.
`daysSinceEpoch` is the fractional-day offset of the queried time from the
2000-01-01 reference epoch, idealised as a real number. -/
noncomputable def calculatePosition (bodyKey : Option String) (distance : ℝ)
    (daysSinceEpoch : ℝ) : ℝ × ℝ × ℝ :=
  let period : ℝ := ((orbitalPeriods.lookup (bodyKey.getD ( "Earth" ))).getD 365.256 : ℚ)
  let angle := daysSinceEpoch / period * Real.pi * 2
  (distance * Real.cos angle, 0, distance * Real.sin angle)

/-- Euclidean norm of a position triple. -/
noncomputable def posNorm (p : ℝ × ℝ × ℝ) : ℝ :=
  Real.sqrt (p.1 ^ 2 + p.2.1 ^ 2 + p.2.2 ^ 2)

/-- The tracked non-Sun bodies: the six `PLANETS` entries plus the Moon,
exactly the keys of `orbitalPeriods`. -/
inductive TrackedBody : Type
  | mercury | venus | earth | mars | jupiter | saturn | moon
deriving DecidableEq

/-- The `orbitalPeriods` key of a tracked body (its astronomy-engine `Body`
enum name). -/
def TrackedBody.key : TrackedBody → String
  | .mercury => "Mercury"
  | .venus => "Venus"
  | .earth => "Earth"
  | .mars => "Mars"
  | .jupiter => "Jupiter"
  | .saturn => "Saturn"
  | .moon => "Moon"

/-- The orbit radius passed to `calculatePosition` for each tracked body: the
`distance` field of `PLANETS`, and 2 for the Moon (the call
`calculatePosition(Body.Moon, 2)`). -/
def TrackedBody.distance : TrackedBody → ℝ
  | .mercury => 12
  | .venus => 18
  | .earth => 24
  | .mars => 30
  | .jupiter => 45
  | .saturn => 60
  | .moon => 2

/-- The orbital period of a tracked body, from `orbitalPeriods`. -/
def TrackedBody.period : TrackedBody → ℚ
  | .mercury => 87.97
  | .venus => 224.7
  | .earth => 365.256
  | .mars => 686.98
  | .jupiter => 4332.59
  | .saturn => 10759.22
  | .moon => 27.32

/-- The mutable pieces of `CameraController` touched by the per-frame
animation callback: the `enabled` flag of the OrbitControls, the
`isAnimating` ref, the pending `requestAnimationFrame` handle, the camera
position and the controls target. -/
structure CameraState where
  controlsEnabled : Bool
  isAnimating : Bool
  pendingHandle : Option Nat
  cameraPos : ℝ × ℝ × ℝ
  controlsTarget : ℝ × ℝ × ℝ

/-- `easeInOutCubic` of the source:
`t < 0.5 ? 4*t*t*t : 1 - Math.pow(-2*t + 2, 3) / 2`. -/
noncomputable def easeInOutCubic (t : ℝ) : ℝ :=
  if t < 1 / 2 then 4 * t * t * t else 1 - (-2 * t + 2) ^ 3 / 2

/-- `THREE.Vector3.lerpVectors a b s = a + (b - a) * s`, componentwise. -/
def lerpVectors (a b : ℝ × ℝ × ℝ) (s : ℝ) : ℝ × ℝ × ℝ :=
  (a.1 + (b.1 - a.1) * s, a.2.1 + (b.2.1 - a.2.1) * s, a.2.2 + (b.2.2 - a.2.2) * s)

/-- One invocation of the `animate` callback of `CameraController`, at
`elapsed = performance.now() - startTime` milliseconds, with `nextHandle` the
handle `requestAnimationFrame` would return for the re-scheduled callback:
`progress = Math.min(elapsed / duration, 1)` with `duration = 1200`;
if `progress <= 1` the camera and target are eased-lerped and the callback is
re-scheduled; otherwise (the completion branch of the source) the controls are
re-enabled, `isAnimating` is cleared and the pending handle is cleared. -/
noncomputable def animateTick (startPosition endPosition startTarget target : ℝ × ℝ × ℝ)
    (elapsed : ℝ) (nextHandle : Nat) (s : CameraState) : CameraState :=
  let duration : ℝ := 1200
  let progress := min (elapsed / duration) 1
  if progress ≤ 1 then
    let eased := easeInOutCubic progress
    { s with
      cameraPos := lerpVectors startPosition endPosition eased
      controlsTarget := lerpVectors startTarget target eased
      pendingHandle := some nextHandle }
  else
    { s with controlsEnabled := true, isAnimating := false, pendingHandle := none }

/-! ## Helper lemmas -/

/-- For a cycle index presented as a non-negative integer below 60, the
stem/branch assembly succeeds and returns the sexagenary name of that index. -/
lemma ganZhiFromOffset_natCast :
    ∀ n : Nat, n < 60 → ganZhiFromOffset (n : Int) = some (labelOfIndex n) := by
  decide

/-- For years ≥ 4 the truncated JS modulo agrees with the non-negative one,
so `getGanZhiYear` returns the name of cycle index `(year − 4) mod 60`. -/
lemma getGanZhiYear_eq (y : Int) (h : 4 ≤ y) :
    getGanZhiYear y = some (labelOfIndex ((y - 4) % 60).toNat) := by
  have h0 : 0 ≤ y - 4 := by omega
  obtain ⟨n, hn, hlt⟩ : ∃ n : Nat, ((y - 4) % 60 : Int) = n ∧ n < 60 :=
    ⟨((y - 4) % 60).toNat, by omega, by omega⟩
  unfold getGanZhiYear
  have hjs : jsMod (y - 4) 60 = (n : Int) := by
    unfold jsMod
    rw [Int.tmod_eq_emod h0 (by norm_num)]
    exact hn
  rw [hjs, hn, Int.toNat_natCast]
  exact ganZhiFromOffset_natCast n hlt

/-- The spec-side year label is the name of cycle index `(year − 4) mod 60`,
for every integer year. -/
lemma specYearLabel_eq (y : Int) :
    specYearLabel y = labelOfIndex ((y - 4) % 60).toNat := by
  obtain ⟨n, hn, hlt⟩ : ∃ n : Nat, ((y - 4) % 60 : Int) = n ∧ n < 60 :=
    ⟨((y - 4) % 60).toNat, by omega, by omega⟩
  unfold specYearLabel labelOfIndex
  dsimp only
  rw [hn, Int.toNat_natCast]
  have h10 : (((n : Int)) % 10).toNat = n % 10 := by omega
  have h12 : (((n : Int)) % 12).toNat = n % 12 := by omega
  rw [h10, h12]

/-- For a non-positive dividend the JS truncated `%` is the negated
non-negative residue of the negated dividend. -/
lemma jsMod_neg_dividend (a : Int) (ha : a ≤ 0) : jsMod a 60 = -((-a) % 60) := by
  unfold jsMod
  have h1 : Int.tmod a 60 = -(Int.tmod (-a) 60) := by
    rw [Int.tmod_def, Int.tmod_def, Int.neg_tdiv]
    ring
  rw [h1, Int.tmod_eq_emod (by omega) (by norm_num)]

/-- At a strictly negative offset −59 … −1 at least one of the two subscripts
is negative (both can only be 0 when 60 divides the offset), so the assembly
yields no well-formed label. -/
lemma ganZhiFromOffset_negIdx :
    ∀ k : Nat, k < 60 → 1 ≤ k → ganZhiFromOffset (-(k : Int)) = none := by
  decide

/-- For a year before 4 CE not congruent to 4 modulo 60 the truncated offset
is strictly negative and `getGanZhiYear` returns no well-formed label. -/
lemma getGanZhiYear_neg_offset_none (y : Int) (hlt : y < 4) (hnd : (y - 4) % 60 ≠ 0) :
    getGanZhiYear y = none := by
  have ha : y - 4 ≤ 0 := by omega
  obtain ⟨k, hk, hk1, hk60⟩ :
      ∃ k : Nat, -((-(y - 4)) % 60) = -(k : Int) ∧ 1 ≤ k ∧ k < 60 :=
    ⟨((-(y - 4)) % 60).toNat, by omega, by omega, by omega⟩
  unfold getGanZhiYear
  rw [jsMod_neg_dividend _ ha, hk]
  exact ganZhiFromOffset_negIdx k hk60 hk1

/-- For any year congruent to 4 modulo 60 — also before 4 CE, where the JS
truncated `%` gives −0 = 0 — the offset is 0 and the label is the cycle-head
name 甲子. -/
lemma getGanZhiYear_dvd_offset (y : Int) (hdvd : (y - 4) % 60 = 0) :
    getGanZhiYear y = some (labelOfIndex 0) := by
  have hjs : jsMod (y - 4) 60 = 0 := by
    unfold jsMod
    exact Int.tmod_eq_zero_of_dvd (Int.dvd_of_emod_eq_zero hdvd)
  unfold getGanZhiYear
  rw [hjs]
  decide

/-- Both branches of the loop body of `generate60JiaZi` give the entry the
sexagenary name of its cycle index. -/
lemma name_jiaziEntryFor (y : Int) (i : Nat) :
    (jiaziEntryFor y i).name = labelOfIndex i := by
  unfold jiaziEntryFor labelOfIndex
  dsimp only
  split <;> rfl

/-- Arithmetic of the `startYear` field: for a generation-time year ≥ 63 it is
at least 4, lies in the window `(y − 60, y]`, and is congruent to the cycle
index modulo 60. -/
lemma startYear_jiaziEntryFor (y : Int) (i : Nat) (hi : i < 60) (h : 63 ≤ y) :
    4 ≤ (jiaziEntryFor y i).startYear ∧
    ((jiaziEntryFor y i).startYear - 4) % 60 = i ∧
    y - 60 < (jiaziEntryFor y i).startYear ∧ (jiaziEntryFor y i).startYear ≤ y := by
  unfold jiaziEntryFor
  dsimp only
  split <;> simp only [] <;> omega

/-- The sixty sexagenary names are pairwise distinct. -/
lemma jiaziNames_nodup : ((List.range 60).map labelOfIndex).Nodup := by decide

/-- A point `(R cos a, 0, R sin a)` has Euclidean norm `R` when `R ≥ 0`. -/
lemma circle_norm (R a : ℝ) (hR : 0 ≤ R) :
    posNorm (R * Real.cos a, 0, R * Real.sin a) = R := by
  unfold posNorm
  dsimp only
  have key : (R * Real.cos a) ^ 2 + 0 ^ 2 + (R * Real.sin a) ^ 2 = R ^ 2 := by
    linear_combination R ^ 2 * Real.sin_sq_add_cos_sq a
  rw [key, Real.sqrt_sq hR]

/-! ## Claim theorems -/

/-- C1, counterexample: at year 3 (before 4 CE) the claim fails.  The JS
truncated `%` makes `offset = (3 − 4) % 60 = −1`, the stem and branch
subscripts are negative, and `getGanZhiYear` yields no well-formed
stem+branch string at all, while the claimed formula (non-negative modulo,
offset 59) gives 癸亥. -/
theorem getGanZhiYear_truncating_cex :
    getGanZhiYear 3 = none ∧ specYearLabel 3 = ( "癸亥" ) := by decide

/-- C1, amended: for every year ≥ 4 (where the truncated and the
mathematically-correct modulo agree) `getGanZhiYear` returns exactly the
label with stem index `((year − 4) mod 60) mod 10` and branch index
`((year − 4) mod 60) mod 12`, and in particular `getGanZhiYear 4 = 甲子`.
Before 4 CE the claim holds exactly for the years congruent to 4 modulo 60,
where the truncated offset is (−)0 and the label is the well-formed,
spec-matching 甲子; for every other year before 4 CE the truncated offset is
negative, the subscripts run off the tables, and no well-formed stem+branch
string results. -/
theorem getGanZhiYear_spec_characterization :
    (∀ year : Int, 4 ≤ year → getGanZhiYear year = some (specYearLabel year)) ∧
    getGanZhiYear 4 = some ( "甲子" ) ∧
    (∀ year : Int, year < 4 → (year - 4) % 60 = 0 →
      getGanZhiYear year = some (specYearLabel year) ∧ specYearLabel year = ( "甲子" )) ∧
    (∀ year : Int, year < 4 → (year - 4) % 60 ≠ 0 → getGanZhiYear year = none) := by
  refine ⟨fun year h => ?_, by decide, fun year h1 h2 => ⟨?_, ?_⟩,
    fun year h1 h2 => getGanZhiYear_neg_offset_none year h1 h2⟩
  · rw [getGanZhiYear_eq year h, specYearLabel_eq]
  · rw [getGanZhiYear_dvd_offset year h2, specYearLabel_eq, h2]
    decide
  · rw [specYearLabel_eq, h2]
    decide

/-- C1, witness: the characterization applied at year 2024 (label 甲辰), at
year −56 (well-formed spec-matching 甲子 before 4 CE) and at year 3 (no
well-formed label). -/
theorem getGanZhiYear_spec_characterization_witness :
    (4 ≤ (2024 : Int) ∧ getGanZhiYear 2024 = some ( "甲辰" )) ∧
    ((-56 : Int) < 4 ∧ ((-56 : Int) - 4) % 60 = 0 ∧ getGanZhiYear (-56) = some ( "甲子" )) ∧
    ((3 : Int) < 4 ∧ ((3 : Int) - 4) % 60 ≠ 0 ∧ getGanZhiYear 3 = none) :=
  ⟨⟨by decide, by rw [getGanZhiYear_spec_characterization.1 2024 (by decide)]; decide⟩,
   ⟨by decide, by decide, by
      rw [(getGanZhiYear_spec_characterization.2.2.1 (-56) (by decide) (by decide)).1,
        (getGanZhiYear_spec_characterization.2.2.1 (-56) (by decide) (by decide)).2]⟩,
   ⟨by decide, by decide,
    getGanZhiYear_spec_characterization.2.2.2 3 (by decide) (by decide)⟩⟩

/-- C3, counterexample: 60-year periodicity fails at year 0, where the
truncated modulo puts year 0 out of the stem/branch tables (`none`) while
year 60 gets the ordinary label 庚申. -/
theorem getGanZhiYear_period60_cex :
    getGanZhiYear 0 ≠ getGanZhiYear (0 + 60) := by decide

/-- C3, amended: `getGanZhiYear Y = getGanZhiYear (Y + 60)` holds for every
Y ≥ 4 and also for every Y ≤ −56 (there both offsets are computed in the same
truncated regime and are equal, e.g. both −116 and −56 give the well-formed
甲子).  The identity fails exactly for −55 ≤ Y ≤ 3, where Y + 60 ≥ 4 gets a
well-formed label while the truncated offset of Y is negative and yields
none. -/
theorem getGanZhiYear_period60_characterization :
    (∀ y : Int, 4 ≤ y → getGanZhiYear y = getGanZhiYear (y + 60)) ∧
    (∀ y : Int, y ≤ -56 → getGanZhiYear y = getGanZhiYear (y + 60)) ∧
    (∀ y : Int, -55 ≤ y → y ≤ 3 → getGanZhiYear y ≠ getGanZhiYear (y + 60)) := by
  refine ⟨fun y h => ?_, fun y h => ?_, fun y h1 h2 => ?_⟩
  · rw [getGanZhiYear_eq y h, getGanZhiYear_eq (y + 60) (by omega)]
    have : (y + 60 - 4) % 60 = (y - 4) % 60 := by omega
    rw [this]
  · unfold getGanZhiYear
    congr 1
    rw [jsMod_neg_dividend (y - 4) (by omega), jsMod_neg_dividend (y + 60 - 4) (by omega)]
    omega
  · rw [getGanZhiYear_neg_offset_none y (by omega) (by omega),
      getGanZhiYear_eq (y + 60) (by omega)]
    simp

/-- C3, witness: the characterization applied at year 1984 (periodicity in
the ≥ 4 regime), at year −116 (periodicity in the ≤ −56 regime) and at year 0
(failure of the identity). -/
theorem getGanZhiYear_period60_characterization_witness :
    (4 ≤ (1984 : Int) ∧ getGanZhiYear 1984 = getGanZhiYear (1984 + 60)) ∧
    ((-116 : Int) ≤ -56 ∧ getGanZhiYear (-116) = getGanZhiYear (-116 + 60)) ∧
    ((-55 : Int) ≤ 0 ∧ (0 : Int) ≤ 3 ∧ getGanZhiYear 0 ≠ getGanZhiYear (0 + 60)) :=
  ⟨⟨by decide, getGanZhiYear_period60_characterization.1 1984 (by decide)⟩,
   ⟨by decide, getGanZhiYear_period60_characterization.2.1 (-116) (by decide)⟩,
   ⟨by decide, by decide,
    getGanZhiYear_period60_characterization.2.2 0 (by decide) (by decide)⟩⟩

/-- C2: the per-frame camera tick never performs the Transitioning → Idle
step.  Since `progress = min(elapsed / 1200, 1) ≤ 1` always holds, the
`progress <= 1` test always takes the interpolation branch: for every elapsed
time — including `elapsed = 1200` ms where progress is exactly 1.0 — the tick
leaves `isAnimating` and the disabled OrbitControls unchanged and re-schedules
itself (pending handle set again), contradicting the claimed transition to
Idle at progress 1.0. -/
theorem animateTick_never_reaches_idle
    (startPosition endPosition startTarget target : ℝ × ℝ × ℝ)
    (elapsed : ℝ) (nextHandle : Nat) (s : CameraState) :
    (animateTick startPosition endPosition startTarget target elapsed nextHandle s).isAnimating
        = s.isAnimating ∧
    (animateTick startPosition endPosition startTarget target elapsed nextHandle s).controlsEnabled
        = s.controlsEnabled ∧
    (animateTick startPosition endPosition startTarget target elapsed nextHandle s).pendingHandle
        = some nextHandle := by
  unfold animateTick
  dsimp only
  rw [if_pos (min_le_right _ 1)]
  exact ⟨rfl, rfl, rfl⟩

/-- C4: for any generation-time current year ≥ 63 (in particular every year a
JS `Date` produces in practice), `generate60JiaZi` returns exactly 60 entries
with pairwise-distinct names, and each entry's `startYear` is the most recent
year in `(currentYear − 60, currentYear]` whose year label is the entry's
name. -/
theorem generate60JiaZi_ok (currentYear : Int) (h : 63 ≤ currentYear) :
    (generate60JiaZi currentYear).length = 60 ∧
    ((generate60JiaZi currentYear).map JiaziEntry.name).Nodup ∧
    ∀ e ∈ generate60JiaZi currentYear,
      getGanZhiYear e.startYear = some e.name ∧
      currentYear - 60 < e.startYear ∧ e.startYear ≤ currentYear := by
  refine ⟨by simp [generate60JiaZi], ?_, ?_⟩
  · have hmap : (generate60JiaZi currentYear).map JiaziEntry.name
        = (List.range 60).map labelOfIndex := by
      unfold generate60JiaZi
      rw [List.map_map]
      exact List.map_congr_left (fun i _ => name_jiaziEntryFor currentYear i)
    rw [hmap]
    exact jiaziNames_nodup
  · intro e he
    obtain ⟨i, hi, rfl⟩ := List.mem_map.1 he
    rw [List.mem_range] at hi
    obtain ⟨h4, hmod, hlo, hhi⟩ := startYear_jiaziEntryFor currentYear i hi h
    refine ⟨?_, hlo, hhi⟩
    rw [getGanZhiYear_eq _ h4, name_jiaziEntryFor]
    have : (((jiaziEntryFor currentYear i).startYear - 4) % 60).toNat = i := by omega
    rw [this]

/-- C4, witness: the theorem applied at generation-time year 2025. -/
theorem generate60JiaZi_ok_witness :
    63 ≤ (2025 : Int) ∧
    ((generate60JiaZi 2025).length = 60 ∧
     ((generate60JiaZi 2025).map JiaziEntry.name).Nodup ∧
     ∀ e ∈ generate60JiaZi 2025,
       getGanZhiYear e.startYear = some e.name ∧
       (2025 : Int) - 60 < e.startYear ∧ e.startYear ≤ 2025) :=
  ⟨by decide, generate60JiaZi_ok 2025 (by decide)⟩

set_option maxRecDepth 4000

/-- C5: over a calendar year traversed day by day (day-of-year 1 … 365, or
1 … 366 in leap years) the solar-term index always lies in 0..23 and is
monotonically non-decreasing except for exactly one wrap, which goes from the
high index 23 (day 364) back to 0 on day 365, where
`floor(365·24/365) = 24` and the `mod 24` wraps it; day 366 of a leap year
stays at 0. -/
theorem solarTermIndex_year_cycle :
    (∀ d ∈ List.range' 1 365, getCurrentSolarTermIndex d < 24) ∧
    (∀ d ∈ List.range' 1 366, getCurrentSolarTermIndex d < 24) ∧
    termDescents 365 = 1 ∧ termDescents 366 = 1 ∧
    getCurrentSolarTermIndex 364 = 23 ∧
    getCurrentSolarTermIndex 365 = 0 ∧
    getCurrentSolarTermIndex 366 = 0 := by decide

/-- C5, witness: the range bound applied at day-of-year 100. -/
theorem solarTermIndex_year_cycle_witness :
    100 ∈ List.range' 1 365 ∧ getCurrentSolarTermIndex 100 < 24 :=
  ⟨by decide, solarTermIndex_year_cycle.1 100 (by decide)⟩

/-- C6: for every tracked non-Sun body and every time, the position computed
by `calculatePosition` has Euclidean norm exactly the body's orbit radius; its
y component is 0 and it is `(R cos θ, 0, R sin θ)` for some angle θ. -/
theorem calculatePosition_on_circle (b : TrackedBody) (t : ℝ) :
    posNorm (calculatePosition (some b.key) b.distance t) = b.distance ∧
    (calculatePosition (some b.key) b.distance t).2.1 = 0 ∧
    ∃ θ, calculatePosition (some b.key) b.distance t
        = (b.distance * Real.cos θ, 0, b.distance * Real.sin θ) := by
  unfold calculatePosition
  dsimp only
  refine ⟨circle_norm _ _ ?_, rfl, ⟨_, rfl⟩⟩
  cases b <;> norm_num [TrackedBody.distance]

/-- C7: advancing the time by one orbital period leaves the position of every
tracked non-Sun body unchanged: the phase angle grows by exactly 2π. -/
theorem calculatePosition_periodic (b : TrackedBody) (t : ℝ) :
    calculatePosition (some b.key) b.distance (t + (b.period : ℝ))
      = calculatePosition (some b.key) b.distance t := by
  have hlook : orbitalPeriods.lookup b.key = some b.period := by cases b <;> rfl
  have hP : ((b.period : ℚ) : ℝ) ≠ 0 := by
    cases b <;> norm_num [TrackedBody.period]
  unfold calculatePosition
  dsimp only [Option.getD_some]
  rw [hlook]
  dsimp only [Option.getD_some]
  have key : (t + (b.period : ℝ)) / (b.period : ℝ) * Real.pi * 2
      = t / (b.period : ℝ) * Real.pi * 2 + 2 * Real.pi := by
    field_simp
    ring
  rw [key, Real.cos_add_two_pi, Real.sin_add_two_pi]

/-- C8: for a body name absent from the `orbitalPeriods` table the lookup
falls back to Earth's period 365.256, and `calculatePosition` still returns
the ordinary circular position at the requested radius — the same value it
returns for Earth — rather than propagating any failure. -/
theorem calculatePosition_fallback (bodyName : String)
    (h : orbitalPeriods.lookup bodyName = none) (d t : ℝ) :
    calculatePosition (some bodyName) d t = calculatePosition (some ( "Earth" )) d t ∧
    calculatePosition (some bodyName) d t
      = (d * Real.cos (t / ((365.256 : ℚ) : ℝ) * Real.pi * 2), 0,
         d * Real.sin (t / ((365.256 : ℚ) : ℝ) * Real.pi * 2)) := by
  unfold calculatePosition
  dsimp only [Option.getD_some]
  rw [h]
  have hE : orbitalPeriods.lookup ( "Earth" ) = some (365.256 : ℚ) := rfl
  rw [hE]
  dsimp only [Option.getD_some, Option.getD_none]
  exact ⟨rfl, rfl⟩

/-- C8, witness: the fallback theorem applied to the unrecognized body name
Pluto, radius 1, time 0. -/
theorem calculatePosition_fallback_witness :
    orbitalPeriods.lookup ( "Pluto" ) = none ∧
    (calculatePosition (some ( "Pluto" )) 1 0 = calculatePosition (some ( "Earth" )) 1 0 ∧
     calculatePosition (some ( "Pluto" )) 1 0
       = (1 * Real.cos (0 / ((365.256 : ℚ) : ℝ) * Real.pi * 2), 0,
          1 * Real.sin (0 / ((365.256 : ℚ) : ℝ) * Real.pi * 2))) :=
  ⟨by decide, calculatePosition_fallback ( "Pluto" ) (by decide) 1 0⟩

/-- C9: at the anchor date 1949-10-01 itself (timestamp −639100800000 ms) the
day difference is 0, the offset is `(0 + 10) % 60 = 10`, the stem index is
`10 % 10 = 0` (甲) and the branch index is `10 % 12 = 10` (戌), so
`getGanZhiDay` returns the golden value 甲戌. -/
theorem getGanZhiDay_anchor :
    getGanZhiDay (-639100800000) = some ( "甲戌" ) ∧
    jsMod (0 + 10) 60 = 10 ∧ jsMod 10 10 = 0 ∧ jsMod 10 12 = 10 := by decide

/-- C10: the `jiaziToPlanet` table explicitly covers every one of the 60 cycle
names produced by `generate60JiaZi` (for any generation-time year): the lookup
succeeds and yields one of mercury, jupiter, mars, saturn, venus, so the
`default → earth` fallback is never taken for a valid name. -/
theorem jiaziToPlanet_total (currentYear : Int) :
    ∀ e ∈ generate60JiaZi currentYear,
      jiaziToPlanet.lookup e.name ∈
        [ some ( "mercury" ), some ( "jupiter" ), some ( "mars" ),
          some ( "saturn" ), some ( "venus" ) ] := by
  intro e he
  obtain ⟨i, hi, rfl⟩ := List.mem_map.1 he
  rw [List.mem_range] at hi
  rw [name_jiaziEntryFor]
  clear he
  revert hi
  revert i
  decide

/-- C10, witness: the coverage theorem applied to the first cycle entry 甲子
of the table generated at year 2025. -/
theorem jiaziToPlanet_total_witness :
    (⟨( "甲子" ), 0, 1984⟩ : JiaziEntry) ∈ generate60JiaZi 2025 ∧
    jiaziToPlanet.lookup ( "甲子" ) ∈
      [ some ( "mercury" ), some ( "jupiter" ), some ( "mars" ),
        some ( "saturn" ), some ( "venus" ) ] :=
  ⟨by decide, jiaziToPlanet_total 2025 ⟨( "甲子" ), 0, 1984⟩ (by decide)⟩

end CelestialCal
